import Mathlib

/-!
Shallow embedding of the mpesa-gateway transaction lifecycle core:
the transaction state machine (internal/models), the callback
processing pipeline and webhook delivery loop (internal/worker),
the payment initiation service (internal/payment/service.go) and
the access token cache (internal/mpesa/token_service.go).

Statuses are strings, as in the Go source (`type TransactionStatus string`).
Times are modelled as integer seconds; decimal amounts as integers
(the claims under study never compute with the amount).
-/

namespace MpesaGateway

/-- Status constant PENDING (models package). -/
def StatusPending : String := "PENDING"

/-- Status constant COMPLETED (models package). -/
def StatusCompleted : String := "COMPLETED"

/-- Status constant FAILED (models package). -/
def StatusFailed : String := "FAILED"

/-- The `validTransitions` map literal from models.IsValidTransition:
`PENDING ↦ [COMPLETED, FAILED]`, `COMPLETED ↦ []`, `FAILED ↦ []`,
any other key absent. -/
def validTransitions (s : String) : Option (List String) :=
  if s = StatusPending then some [StatusCompleted, StatusFailed]
  else if s = StatusCompleted then some []
  else if s = StatusFailed then some []
  else none

/-- models.IsValidTransition: look the `from` status up in the map;
a missing key is invalid; otherwise scan the allowed-target list. -/
def IsValidTransition (f t : String) : Bool :=
  match validTransitions f with
  | none => false
  | some allowed => allowed.contains t

/-- One loosely-typed metadata value from the M-Pesa callback
(`Value interface{}` in mpesa.Item): a number, a string, or JSON null. -/
inductive MValue where
  | num (n : Int)
  | str (s : String)
  | null
deriving DecidableEq

/-- mpesa.Item: a `{Name, Value}` pair from the callback metadata list. -/
structure Item where
  name : String
  value : MValue
deriving DecidableEq

/-- Insertion into the metadata map (Go `result[item.Name] = item.Value`):
overwrite an existing key in place, otherwise append. -/
def insertMeta (m : List (String × MValue)) (k : String) (v : MValue) :
    List (String × MValue) :=
  if m.any (fun p => p.1 == k) then
    m.map (fun p => if p.1 == k then (k, v) else p)
  else m ++ [(k, v)]

/-- mpesa.ParseMpesaMetadata: fold the flat item list into a map,
skipping items with an empty name. -/
def ParseMpesaMetadata (items : List Item) : List (String × MValue) :=
  items.foldl (fun m it => if it.name ≠ "" then insertMeta m it.name it.value else m) []

/-- worker-side view of a transaction row (models.Transaction; the columns
the worker and initiation service touch). Ids are numeric stand-ins for
UUIDs, the amount an integer stand-in for the exact decimal. -/
structure Transaction where
  id : Nat
  internalTransactionID : Nat
  idempotencyKey : Nat
  checkoutRequestID : Option String
  merchantRequestID : Option String
  amount : Int
  phone : String
  status : String
  mpesaMetadata : Option (List (String × MValue))
  tenantWebhookURL : String
  errorMessage : Option String
  completedAt : Option Nat
deriving DecidableEq

/-- One audit row produced by `recordWebhookAttempt`, together with the
backoff sleep the loop performed just before the attempt. -/
structure AttemptRecord where
  attemptNumber : Nat
  success : Bool
  delayBefore : Nat
deriving DecidableEq

/-- The worker's backoff table, in seconds
(`backoff := []time.Duration{0, 1m, 5m, 15m}`). -/
def backoff : List Nat := [0, 60, 300, 900]

/-- deliverWebhook's success test: a transport error (`none`) is a failure,
otherwise success is `200 <= code < 300`. -/
def attemptSuccess (resp : Option Int) : Bool :=
  match resp with
  | none => false
  | some code => (200 ≤ code) && (code < 300)

/-- The body of sendWebhook's retry loop. `env n` is the HTTP response
status of the n-th POST (`none` for a transport error); `fuel` counts the
remaining iterations of `for attemptNumber <= maxRetries`. Each iteration
sleeps `backoff[attemptNumber-1]` when `attemptNumber > 1`, performs the
POST, records exactly one attempt row, and stops on success. -/
def sendWebhookAux (env : Nat → Option Int) : Nat → Nat → List AttemptRecord × Bool
  | _, 0 => ([], false)
  | n, fuel + 1 =>
    let delay := if 1 < n then backoff.getD (n - 1) 0 else 0
    let ok := attemptSuccess (env n)
    if ok then ([⟨n, ok, delay⟩], true)
    else
      let rest := sendWebhookAux env (n + 1) fuel
      (⟨n, ok, delay⟩ :: rest.1, rest.2)

/-- worker.sendWebhook's delivery loop: attempts start at 1 with
`maxRetries = 4`; returns the audit rows in order and whether delivery
succeeded (`false` means the "webhook delivery failed after 4 attempts"
error is returned to the caller). -/
def sendWebhook (env : Nat → Option Int) : List AttemptRecord × Bool :=
  sendWebhookAux env 1 4

/-- The decoded callback payload (worker.CallbackPayload, flattened to the
fields `ProcessCallback` reads). -/
structure Callback where
  merchantRequestID : String
  checkoutRequestID : String
  resultCode : Int
  resultDesc : String
  items : List Item
deriving DecidableEq

/-- The persistent store visible to the worker: the transactions table and
the webhook_attempts table (owning row id paired with the attempt). -/
structure DB where
  transactions : List Transaction
  webhookAttempts : List (Nat × AttemptRecord)
deriving DecidableEq

/-- The error outcomes of `ProcessCallback` (a `none` result is the Go
`nil` return, covering both genuine success and the no-op paths). -/
inductive CbError where
  | missingCheckoutID
  | notFound
  | invalidTransition (f t : String)
deriving DecidableEq

/-- Row-lookup predicate of `getTransactionByCheckoutID`
(`WHERE checkout_request_id = $1`). -/
def cidMatch (cid : String) (t : Transaction) : Bool :=
  t.checkoutRequestID == some cid

/-- The WHERE clause of the conditional update
(`WHERE checkout_request_id = $4 AND status = 'PENDING'`). -/
def matchesUpdate (cid : String) (t : Transaction) : Bool :=
  cidMatch cid t && (t.status == StatusPending)

/-- The SET clause of the conditional update: status, metadata and error
message are overwritten; `completed_at` becomes NOW() when the new status
is terminal (`CASE WHEN $1 IN ('COMPLETED','FAILED') ...`). -/
def setClause (now : Nat) (newStatus : String) (metadata : List (String × MValue))
    (errorMsg : Option String) (t : Transaction) : Transaction :=
  { t with
    status := newStatus
    mpesaMetadata := some metadata
    errorMessage := errorMsg
    completedAt :=
      if (newStatus == StatusCompleted) || (newStatus == StatusFailed) then some now
      else t.completedAt }

/-- Per-row effect of the conditional UPDATE. -/
def updFun (now : Nat) (cid newStatus : String) (metadata : List (String × MValue))
    (errorMsg : Option String) (t : Transaction) : Transaction :=
  if matchesUpdate cid t then setClause now newStatus metadata errorMsg t else t

/-- The conditional UPDATE statement: rewrite every matching row and report
the number of affected rows. -/
def updateIfPending (now : Nat) (cid newStatus : String)
    (metadata : List (String × MValue)) (errorMsg : Option String)
    (txs : List Transaction) : List Transaction × Nat :=
  (txs.map (updFun now cid newStatus metadata errorMsg),
   (txs.filter (matchesUpdate cid)).length)

/-- worker.ProcessCallback over the store model. `env` supplies the webhook
POST outcomes, `now` the clock read by the UPDATE's NOW(). Mirrors the Go
control flow: reject a missing checkout id; resolve the row (first match);
no-op when already terminal; derive the target status from the result code;
defensively validate the transition; apply the conditional update; treat
zero affected rows as an already-processed no-op; otherwise send the
webhook, appending its audit rows, and ignore its failure. -/
def ProcessCallback (env : Nat → Option Int) (now : Nat) (db : DB) (cb : Callback) :
    DB × Option CbError :=
  if cb.checkoutRequestID = "" then (db, some CbError.missingCheckoutID)
  else
    match db.transactions.find? (cidMatch cb.checkoutRequestID) with
    | none => (db, some CbError.notFound)
    | some tx =>
      if tx.status ≠ StatusPending then (db, none)
      else
        let newStatus := if cb.resultCode = 0 then StatusCompleted else StatusFailed
        let errorMsg : Option String :=
          if cb.resultCode = 0 then none else some cb.resultDesc
        if ¬ IsValidTransition tx.status newStatus then
          (db, some (CbError.invalidTransition tx.status newStatus))
        else
          let metadata := ParseMpesaMetadata cb.items
          let upd := updateIfPending now cb.checkoutRequestID newStatus metadata
            errorMsg db.transactions
          if upd.2 = 0 then ({ db with transactions := upd.1 }, none)
          else
            let wh := sendWebhook env
            ({ transactions := upd.1,
               webhookAttempts := db.webhookAttempts ++ wh.1.map (fun r => (tx.id, r)) },
             none)

/-- Concrete fixture: a PENDING transaction row awaiting its callback. -/
def sampleTx : Transaction :=
  { id := 1
    internalTransactionID := 11
    idempotencyKey := 5
    checkoutRequestID := some ("ws_CO_191220191020363925")
    merchantRequestID := some ("29115-34620561-1")
    amount := 100
    phone := "254712345678"
    status := StatusPending
    mpesaMetadata := none
    tenantWebhookURL := "https://tenant.example/hook"
    errorMessage := none
    completedAt := none }

/-- Concrete fixture: a store holding just `sampleTx`. -/
def sampleDB : DB := { transactions := [sampleTx], webhookAttempts := [] }

/-- Concrete fixture: the success callback for `sampleTx`. -/
def sampleCb : Callback :=
  { merchantRequestID := "29115-34620561-1"
    checkoutRequestID := "ws_CO_191220191020363925"
    resultCode := 0
    resultDesc := "The service request is processed successfully."
    items := [⟨"Amount", MValue.num 100⟩, ⟨"MpesaReceiptNumber", MValue.str ("NLJ7RT61SV")⟩] }

/-- Concrete fixture: the failure callback for `sampleTx`. -/
def sampleCbFail : Callback :=
  { merchantRequestID := "29115-34620561-1"
    checkoutRequestID := "ws_CO_191220191020363925"
    resultCode := 1
    resultDesc := "Insufficient funds"
    items := [] }

/-- Concrete fixture: a webhook target that acknowledges every POST. -/
def sampleEnvOk : Nat → Option Int := fun _ => some 200

/-- Concrete fixture: a webhook target that always returns a server error. -/
def sampleEnvFail : Nat → Option Int := fun _ => some 500

/-- Delay prescribed before attempt n: none before attempt 1, then
1, 5 and 15 minutes before attempts 2, 3 and 4 (in seconds). -/
def specDelay (n : Nat) : Nat :=
  if n = 2 then 60 else if n = 3 then 300 else if n = 4 then 900 else 0

/-- payment.InitiatePaymentRequest (amount as exact integer stand-in,
idempotency key as numeric stand-in for the UUID). -/
structure InitiatePaymentRequest where
  amount : Int
  phone : String
  webhookURL : String
  idempotencyKey : Nat
deriving DecidableEq

/-- payment.InitiatePaymentResponse. -/
structure InitiatePaymentResponse where
  transactionID : Nat
  status : String
deriving DecidableEq

/-- Outcome of `callSTKPush`: the correlation ids on success, or the error
message it returns (token failure, transport failure, non-200, non-zero
response code). -/
inductive StkOutcome where
  | ok (checkoutRequestID merchantRequestID : String)
  | fail (msg : String)
deriving DecidableEq

/-- Error outcomes of `InitiatePayment`. -/
inductive InitError where
  | duplicateKey
  | stkFailed (msg : String)
deriving DecidableEq

/-- The subscriber-number format enforced at the boundary and by the
schema (`^254[0-9]{9}$`, length 12). -/
def validPhone (p : String) : Bool :=
  (p.length == 12) && (p.take 3 == "254") && p.toList.all Char.isDigit

/-- The fresh row `InitiatePayment` INSERTs (status PENDING, correlation
ids and metadata still null). -/
def newPaymentRow (rowId internalTxID : Nat) (req : InitiatePaymentRequest) : Transaction :=
  { id := rowId
    internalTransactionID := internalTxID
    idempotencyKey := req.idempotencyKey
    checkoutRequestID := none
    merchantRequestID := none
    amount := req.amount
    phone := req.phone
    status := StatusPending
    mpesaMetadata := none
    tenantWebhookURL := req.webhookURL
    errorMessage := none
    completedAt := none }

/-- payment.Service.InitiatePayment over the store model. `internalTxID`
stands for the generated UUID, `stk` for the upstream call's outcome.
The INSERT hits the idempotency-key unique constraint exactly when a row
with that key already exists; then the call aborts (rolled back, no row)
with the duplicate-request error. Otherwise: on upstream failure the error
message is persisted on the row and committed, and the STK failure is
returned; on upstream success the correlation ids are persisted and the
new transaction id is returned with status PENDING. -/
def InitiatePayment (db : List Transaction) (internalTxID : Nat)
    (req : InitiatePaymentRequest) (stk : StkOutcome) :
    List Transaction × Except InitError InitiatePaymentResponse :=
  if db.any (fun t => t.idempotencyKey == req.idempotencyKey) then
    (db, Except.error InitError.duplicateKey)
  else
    let row := newPaymentRow db.length internalTxID req
    match stk with
    | StkOutcome.fail msg =>
        (db ++ [{ row with errorMessage := some msg }],
         Except.error (InitError.stkFailed msg))
    | StkOutcome.ok c m =>
        (db ++ [{ row with
            checkoutRequestID := some c
            merchantRequestID := some m }],
         Except.ok { transactionID := internalTxID, status := StatusPending })

/-- Concrete fixture: a valid initiation request. -/
def sampleReq : InitiatePaymentRequest :=
  { amount := 100
    phone := "254712345678"
    webhookURL := "https://tenant.example/hook"
    idempotencyKey := 42 }

/-- Concrete fixture: a second request reusing `sampleReq`'s key. -/
def sampleReq2 : InitiatePaymentRequest :=
  { amount := 250
    phone := "254700000001"
    webhookURL := "https://other.example/hook"
    idempotencyKey := 42 }

/-- The mutable cache fields of mpesa.TokenService (`token`, `expiresAt`),
time in integer seconds. -/
structure TokenState where
  token : String
  expiresAt : Int
deriving DecidableEq

/-- Parsed body of the upstream OAuth response: undecodable JSON, or the
decoded TokenResponse (access token plus the parsed `expires_in`;
`none` stands for an absent or unparseable value). -/
inductive TokenRespBody where
  | decodeError
  | parsed (accessToken : String) (expiresIn : Option Int)
deriving DecidableEq

/-- Outcome of the HTTP GET against the auth URL. -/
inductive AuthResult where
  | transportError (msg : String)
  | response (statusCode : Int) (body : TokenRespBody)
deriving DecidableEq

/-- The validity check `time.Now().Before(ts.expiresAt) && ts.token != ""`
used by both the read-locked fast path and the locked double-check. -/
def tokenValid (now : Int) (st : TokenState) : Bool :=
  decide (now < st.expiresAt) && (st.token != "")

/-- mpesa.refreshToken: a transport failure, a non-200 status, an
undecodable body, or an empty access token fail without touching the
cache; otherwise the token is stored with expiry
`now + expiresIn − 5 minutes` (`expiresIn` defaulting to 3599 s). -/
def refreshToken (now : Int) (resp : AuthResult) (st : TokenState) :
    TokenState × Option String :=
  match resp with
  | AuthResult.transportError msg => (st, some ("failed to request token: " ++ msg))
  | AuthResult.response code body =>
    if code ≠ 200 then (st, some ("token request failed"))
    else
      match body with
      | TokenRespBody.decodeError => (st, some ("failed to decode token response"))
      | TokenRespBody.parsed tok e =>
        if tok = "" then (st, some ("received empty access token"))
        else
          let expiresIn : Int :=
            match e with
            | some s => s
            | none => 3599
          ({ token := tok, expiresAt := now + expiresIn - 300 }, none)

/-- mpesa.refreshTokenSafe: the body of the exclusive critical section —
re-check validity (another caller may have refreshed), else perform the
actual refresh. The third component counts upstream token requests issued
by this call. -/
def refreshTokenSafe (now : Int) (resp : AuthResult) (st : TokenState) :
    TokenState × Except String String × Nat :=
  if tokenValid now st then (st, Except.ok st.token, 0)
  else
    match refreshToken now resp st with
    | (st2, some e) => (st2, Except.error e, 1)
    | (st2, none) => (st2, Except.ok st2.token, 1)

/-- mpesa.GetToken: read-locked fast path at clock `nowFast`, then the
locked slow path at clock `nowLocked`. -/
def GetToken (nowFast nowLocked : Int) (resp : AuthResult) (st : TokenState) :
    TokenState × Except String String × Nat :=
  if tokenValid nowFast st then (st, Except.ok st.token, 0)
  else refreshTokenSafe nowLocked resp st

/-- Lock-serialized execution of the exclusive sections of concurrent
`GetToken` callers that all failed the read-locked fast path: the mutex
admits them one at a time, caller i entering at clock `c.1` with upstream
outcome `c.2`. Returns the final cache, each caller's result in order,
and the total number of upstream token requests issued. -/
def serializeCallers : List (Int × AuthResult) → TokenState →
    TokenState × List (Except String String) × Nat
  | [], st => (st, [], 0)
  | c :: rest, st =>
    let r1 := refreshTokenSafe c.1 c.2 st
    let r2 := serializeCallers rest r1.1
    (r2.1, r1.2.1 :: r2.2.1, r1.2.2 + r2.2.2)

/-- A row is terminal when its status is COMPLETED or FAILED. -/
def isTerminalRow (t : Transaction) : Bool :=
  (t.status == StatusCompleted) || (t.status == StatusFailed)

/-- Terminal-row count of a transaction list. -/
def terminalCount (txs : List Transaction) : Nat :=
  (txs.filter isTerminalRow).length

end MpesaGateway

namespace MpesaGateway

/-- C2: `IsValidTransition(from, to)` is true exactly when `from` is PENDING
and `to` is COMPLETED or FAILED; every other pair, including PENDING→PENDING,
anything out of a terminal state, and unknown status strings, is rejected. -/
theorem isValidTransition_iff (f t : String) :
    IsValidTransition f t = true ↔
      f = StatusPending ∧ (t = StatusCompleted ∨ t = StatusFailed) := by
  unfold IsValidTransition validTransitions
  by_cases hf : f = StatusPending
  · simp [hf, StatusPending, StatusCompleted, StatusFailed]
  · by_cases hfc : f = StatusCompleted
    · simp [hf, hfc, StatusPending, StatusCompleted, StatusFailed]
    · by_cases hff : f = StatusFailed
      · simp [hf, hfc, hff, StatusPending, StatusCompleted, StatusFailed]
      · simp [hf, hfc, hff]

theorem filter_and {α : Type _} (p q : α → Bool) (l : List α) :
    l.filter (fun a => p a && q a) = (l.filter p).filter q := by
  induction l with
  | nil => rfl
  | cons a l ih => cases hp : p a <;> cases hq : q a <;>
      simp [List.filter_cons, hp, hq, ih]

theorem derivedStatus_valid (rc : Int) :
    IsValidTransition StatusPending (if rc = 0 then StatusCompleted else StatusFailed) = true := by
  by_cases h : rc = 0
  · rw [if_pos h]; decide
  · rw [if_neg h]; decide

theorem derivedStatus_terminal (rc : Int) :
    ((if rc = 0 then StatusCompleted else StatusFailed) == StatusCompleted
      || ((if rc = 0 then StatusCompleted else StatusFailed) == StatusFailed)) = true := by
  by_cases h : rc = 0
  · rw [if_pos h]; decide
  · rw [if_neg h]; decide

theorem pending_not_terminal (t : Transaction) (h : t.status = StatusPending) :
    isTerminalRow t = false := by
  simp [isTerminalRow, h, StatusPending, StatusCompleted, StatusFailed]

theorem updFun_preserves_cid (now : Nat) (cid cid' ns : String)
    (md : List (String × MValue)) (em : Option String) (t : Transaction) :
    cidMatch cid' (updFun now cid ns md em t) = cidMatch cid' t := by
  unfold updFun setClause cidMatch
  split <;> rfl

theorem terminalCount_map (g : Transaction → Transaction) (M : Transaction → Bool)
    (l : List Transaction)
    (h1 : ∀ t, M t = true → isTerminalRow (g t) = true ∧ isTerminalRow t = false)
    (h2 : ∀ t, M t = false → g t = t) :
    terminalCount (l.map g) = terminalCount l + (l.filter M).length := by
  induction l with
  | nil => rfl
  | cons a l ih =>
    simp only [terminalCount] at ih ⊢
    cases hM : M a with
    | true =>
      obtain ⟨hg, ha⟩ := h1 a hM
      simp [List.map_cons, List.filter_cons, hg, ha, hM]
      omega
    | false =>
      have hga := h2 a hM
      cases hP : isTerminalRow a <;>
        simp [List.map_cons, List.filter_cons, hP, hM, hga] <;> omega

/-- Characterization of a run of `ProcessCallback` on a callback that
resolves (uniquely) to a PENDING transaction: it succeeds, applies the
conditional update to the store, and appends the webhook audit rows. -/
theorem processCallback_run (env : Nat → Option Int) (now : Nat) (db : DB)
    (cb : Callback) (tx : Transaction)
    (hcid : cb.checkoutRequestID ≠ "")
    (hq : db.transactions.filter (cidMatch cb.checkoutRequestID) = [tx])
    (hpend : tx.status = StatusPending) :
    ProcessCallback env now db cb =
      ({ transactions := db.transactions.map
           (updFun now cb.checkoutRequestID
             (if cb.resultCode = 0 then StatusCompleted else StatusFailed)
             (ParseMpesaMetadata cb.items)
             (if cb.resultCode = 0 then none else some cb.resultDesc))
         webhookAttempts := db.webhookAttempts ++ (sendWebhook env).1.map (fun r => (tx.id, r)) },
       none) := by
  have hfind : db.transactions.find? (cidMatch cb.checkoutRequestID) = some tx := by
    rw [← List.filter_head? (cidMatch cb.checkoutRequestID) db.transactions, hq]
    rfl
  have hmu : db.transactions.filter (matchesUpdate cb.checkoutRequestID) = [tx] := by
    have he : matchesUpdate cb.checkoutRequestID =
        fun t => cidMatch cb.checkoutRequestID t && (t.status == StatusPending) := rfl
    rw [he, filter_and, hq, List.filter_cons]
    simp [hpend]
  simp [ProcessCallback, hcid, hfind, hpend, derivedStatus_valid, updateIfPending, hmu]

theorem filter_matchesUpdate (cid : String) (l : List Transaction) (tx : Transaction)
    (hq : l.filter (cidMatch cid) = [tx]) (hpend : tx.status = StatusPending) :
    l.filter (matchesUpdate cid) = [tx] := by
  have he : matchesUpdate cid =
      fun t => cidMatch cid t && (t.status == StatusPending) := rfl
  rw [he, filter_and, hq, List.filter_cons]
  simp [hpend]

theorem matchesUpdate_tx (cid : String) (l : List Transaction) (tx : Transaction)
    (hq : l.filter (cidMatch cid) = [tx]) (hpend : tx.status = StatusPending) :
    matchesUpdate cid tx = true := by
  have hmem : tx ∈ l.filter (cidMatch cid) := by
    rw [hq]; exact List.mem_singleton.mpr rfl
  have hc := (List.mem_filter.mp hmem).2
  unfold matchesUpdate
  rw [hc, hpend]
  decide

theorem find?_map_updated (now : Nat) (cid ns : String) (md : List (String × MValue))
    (em : Option String) (l : List Transaction) (tx : Transaction)
    (hq : l.filter (cidMatch cid) = [tx]) :
    (l.map (updFun now cid ns md em)).find? (cidMatch cid) =
      some (updFun now cid ns md em tx) := by
  have hfind : l.find? (cidMatch cid) = some tx := by
    rw [← List.filter_head? (cidMatch cid) l, hq]; rfl
  rw [List.find?_map]
  have hcomp : (cidMatch cid ∘ updFun now cid ns md em) = cidMatch cid := by
    funext u; exact updFun_preserves_cid now cid cid ns md em u
  rw [hcomp, hfind]
  rfl

/-- C9: the defensive invalid-transition branch of `ProcessCallback` is
unreachable: no input can make the pipeline return the invalid-transition
fatal error, because a PENDING row always admits the derived terminal
status under `IsValidTransition`. -/
theorem processCallback_invalid_unreachable (env : Nat → Option Int) (now : Nat)
    (db : DB) (cb : Callback) (f t : String) :
    (ProcessCallback env now db cb).2 ≠ some (CbError.invalidTransition f t) := by
  unfold ProcessCallback
  by_cases h1 : cb.checkoutRequestID = ""
  · simp [h1]
  · rw [if_neg h1]
    cases hfind : db.transactions.find? (cidMatch cb.checkoutRequestID) with
    | none => simp
    | some tx =>
      by_cases hp : tx.status = StatusPending
      · simp only [hp]
        simp [derivedStatus_valid]
        split <;> split <;> simp
      · simp [hp]

/-- C4: when a callback resolves to a PENDING transaction, a zero upstream
result code drives it to COMPLETED (clearing the error message), and any
non-zero result code drives it to FAILED with the upstream result
description stored as the error message; the run itself reports no error. -/
theorem processCallback_result_mapping (env : Nat → Option Int) (now : Nat)
    (db : DB) (cb : Callback) (tx : Transaction)
    (hcid : cb.checkoutRequestID ≠ "")
    (hq : db.transactions.filter (cidMatch cb.checkoutRequestID) = [tx])
    (hpend : tx.status = StatusPending) :
    (ProcessCallback env now db cb).2 = none ∧
    ∃ tx2,
      (ProcessCallback env now db cb).1.transactions.find?
          (cidMatch cb.checkoutRequestID) = some tx2 ∧
      tx2.status = (if cb.resultCode = 0 then StatusCompleted else StatusFailed) ∧
      tx2.errorMessage = (if cb.resultCode = 0 then none else some cb.resultDesc) := by
  rw [processCallback_run env now db cb tx hcid hq hpend]
  refine ⟨rfl, ?_⟩
  have hmatch := matchesUpdate_tx cb.checkoutRequestID db.transactions tx hq hpend
  have hupd : updFun now cb.checkoutRequestID
      (if cb.resultCode = 0 then StatusCompleted else StatusFailed)
      (ParseMpesaMetadata cb.items)
      (if cb.resultCode = 0 then none else some cb.resultDesc) tx =
      setClause now (if cb.resultCode = 0 then StatusCompleted else StatusFailed)
        (ParseMpesaMetadata cb.items)
        (if cb.resultCode = 0 then none else some cb.resultDesc) tx := by
    unfold updFun; rw [hmatch]; rfl
  refine ⟨updFun now cb.checkoutRequestID
      (if cb.resultCode = 0 then StatusCompleted else StatusFailed)
      (ParseMpesaMetadata cb.items)
      (if cb.resultCode = 0 then none else some cb.resultDesc) tx, ?_, ?_, ?_⟩
  · exact find?_map_updated now cb.checkoutRequestID _ _ _ db.transactions tx hq
  · rw [hupd]; rfl
  · rw [hupd]; rfl

/-- C1: replaying a terminal callback is idempotent. For a callback that
resolves (uniquely) to a PENDING transaction, the first `ProcessCallback`
run succeeds and performs exactly one terminal state change (the store
keeps its rows; exactly one more row is terminal), and the second run over
the same payload succeeds as a pure no-op: the whole store — in particular
that transaction's status, metadata, error message and completion
timestamp — is left unchanged. -/
theorem processCallback_terminal_idempotent (env1 env2 : Nat → Option Int)
    (now1 now2 : Nat) (db : DB) (cb : Callback) (tx : Transaction)
    (hcid : cb.checkoutRequestID ≠ "")
    (hq : db.transactions.filter (cidMatch cb.checkoutRequestID) = [tx])
    (hpend : tx.status = StatusPending) :
    (ProcessCallback env1 now1 db cb).2 = none ∧
    (ProcessCallback env1 now1 db cb).1.transactions.length = db.transactions.length ∧
    terminalCount (ProcessCallback env1 now1 db cb).1.transactions =
      terminalCount db.transactions + 1 ∧
    ProcessCallback env2 now2 (ProcessCallback env1 now1 db cb).1 cb =
      ((ProcessCallback env1 now1 db cb).1, none) := by
  have hrun := processCallback_run env1 now1 db cb tx hcid hq hpend
  have hmu := filter_matchesUpdate cb.checkoutRequestID db.transactions tx hq hpend
  have hmatch := matchesUpdate_tx cb.checkoutRequestID db.transactions tx hq hpend
  rw [hrun]
  refine ⟨rfl, by simp, ?_, ?_⟩
  · have hcount := terminalCount_map
      (updFun now1 cb.checkoutRequestID
        (if cb.resultCode = 0 then StatusCompleted else StatusFailed)
        (ParseMpesaMetadata cb.items)
        (if cb.resultCode = 0 then none else some cb.resultDesc))
      (matchesUpdate cb.checkoutRequestID) db.transactions ?_ ?_
    · rw [hcount, hmu]
      rfl
    · intro u hu
      constructor
      · unfold updFun
        rw [hu]
        simp only [if_pos]
        unfold setClause isTerminalRow
        exact derivedStatus_terminal cb.resultCode
      · have : u.status = StatusPending := by
          have := (Bool.and_eq_true _ _).mp hu
          exact beq_iff_eq.mp this.2
        exact pending_not_terminal u this
    · intro u hu
      unfold updFun
      rw [hu]
      rfl
  · have hfind2 := find?_map_updated now1 cb.checkoutRequestID
      (if cb.resultCode = 0 then StatusCompleted else StatusFailed)
      (ParseMpesaMetadata cb.items)
      (if cb.resultCode = 0 then none else some cb.resultDesc)
      db.transactions tx hq
    have hne : (updFun now1 cb.checkoutRequestID
        (if cb.resultCode = 0 then StatusCompleted else StatusFailed)
        (ParseMpesaMetadata cb.items)
        (if cb.resultCode = 0 then none else some cb.resultDesc) tx).status ≠
        StatusPending := by
      unfold updFun
      rw [hmatch]
      simp only [if_pos]
      unfold setClause
      by_cases h : cb.resultCode = 0
      · rw [if_pos h]; simp; decide
      · rw [if_neg h]; simp; decide
    simp [ProcessCallback, hcid, hfind2, hne]

/-- Witness for C4 at a concrete failed payment (result code 1,
description "Insufficient funds"). -/
theorem processCallback_result_mapping_witness :
    (sampleCbFail.checkoutRequestID ≠ "" ∧
     sampleDB.transactions.filter (cidMatch sampleCbFail.checkoutRequestID) = [sampleTx] ∧
     sampleTx.status = StatusPending) ∧
    ((ProcessCallback sampleEnvOk 99 sampleDB sampleCbFail).2 = none ∧
     ∃ tx2,
       (ProcessCallback sampleEnvOk 99 sampleDB sampleCbFail).1.transactions.find?
           (cidMatch sampleCbFail.checkoutRequestID) = some tx2 ∧
       tx2.status =
         (if sampleCbFail.resultCode = 0 then StatusCompleted else StatusFailed) ∧
       tx2.errorMessage =
         (if sampleCbFail.resultCode = 0 then none else some sampleCbFail.resultDesc)) :=
  ⟨⟨by decide, by decide, rfl⟩,
   processCallback_result_mapping sampleEnvOk 99 sampleDB sampleCbFail sampleTx
     (by decide) (by decide) rfl⟩

/-- Witness for C1 at a concrete successful payment callback replayed a
second time (second delivery even sees a failing webhook target). -/
theorem processCallback_terminal_idempotent_witness :
    (sampleCb.checkoutRequestID ≠ "" ∧
     sampleDB.transactions.filter (cidMatch sampleCb.checkoutRequestID) = [sampleTx] ∧
     sampleTx.status = StatusPending) ∧
    ((ProcessCallback sampleEnvOk 99 sampleDB sampleCb).2 = none ∧
     (ProcessCallback sampleEnvOk 99 sampleDB sampleCb).1.transactions.length =
       sampleDB.transactions.length ∧
     terminalCount (ProcessCallback sampleEnvOk 99 sampleDB sampleCb).1.transactions =
       terminalCount sampleDB.transactions + 1 ∧
     ProcessCallback sampleEnvFail 123 (ProcessCallback sampleEnvOk 99 sampleDB sampleCb).1
         sampleCb =
       ((ProcessCallback sampleEnvOk 99 sampleDB sampleCb).1, none)) :=
  ⟨⟨by decide, by decide, rfl⟩,
   processCallback_terminal_idempotent sampleEnvOk sampleEnvFail 99 123 sampleDB
     sampleCb sampleTx (by decide) (by decide) rfl⟩

/-- C5: the delivery loop performs at most 4 POST attempts; it records one
audit row per attempt, numbered contiguously from 1; each attempt's sleep
matches the 0 / 1 min / 5 min / 15 min backoff table; each row's success
flag reflects whether that POST got a 2xx response; the loop stops at the
first success (a successful row is always the last); it returns success
exactly when some attempt got a 2xx, and reports the delivery-failure
error exactly when all 4 attempts were made and all failed. -/
theorem sendWebhook_spec (env : Nat → Option Int) :
    ((sendWebhook env).1.length ≤ 4) ∧
    ((sendWebhook env).1.map (fun r => r.attemptNumber) =
      List.range' 1 (sendWebhook env).1.length) ∧
    (∀ r ∈ (sendWebhook env).1, r.delayBefore = specDelay r.attemptNumber) ∧
    (∀ r ∈ (sendWebhook env).1, r.success = attemptSuccess (env r.attemptNumber)) ∧
    (∀ r ∈ (sendWebhook env).1, r.success = true →
      r.attemptNumber = (sendWebhook env).1.length) ∧
    ((sendWebhook env).2 = true ↔ ∃ r ∈ (sendWebhook env).1, r.success = true) ∧
    ((sendWebhook env).2 = false ↔
      ((sendWebhook env).1.length = 4 ∧ ∀ r ∈ (sendWebhook env).1, r.success = false)) := by
  cases h1 : attemptSuccess (env 1) <;> cases h2 : attemptSuccess (env 2) <;>
    cases h3 : attemptSuccess (env 3) <;> cases h4 : attemptSuccess (env 4) <;>
    simp [sendWebhook, sendWebhookAux, h1, h2, h3, h4, specDelay, backoff, List.range']

/-- C3: two `InitiatePayment` calls sharing an idempotency key — whatever
the other inputs, the generated ids and the upstream outcomes — persist
exactly one transaction row under that key; the second call leaves the
store untouched and reports the duplicate-request (conflict) error. -/
theorem initiatePayment_duplicate_key (db : List Transaction) (id1 id2 : Nat)
    (req1 req2 : InitiatePaymentRequest) (stk1 stk2 : StkOutcome)
    (hkey : req2.idempotencyKey = req1.idempotencyKey)
    (hfresh : db.any (fun t => t.idempotencyKey == req1.idempotencyKey) = false) :
    (((InitiatePayment db id1 req1 stk1).1.filter
        (fun t => t.idempotencyKey == req1.idempotencyKey)).length = 1) ∧
    (InitiatePayment (InitiatePayment db id1 req1 stk1).1 id2 req2 stk2 =
      ((InitiatePayment db id1 req1 stk1).1, Except.error InitError.duplicateKey)) := by
  have hnil : db.filter (fun t => t.idempotencyKey == req1.idempotencyKey) = [] := by
    rw [List.filter_eq_nil_iff]
    intro t ht
    exact (List.any_eq_false.mp hfresh) t ht
  cases stk1 with
  | fail msg =>
    constructor
    · simp [InitiatePayment, hfresh, List.filter_append, hnil, newPaymentRow]
    · simp [InitiatePayment, hfresh, hkey, List.any_append, newPaymentRow]
  | ok c m =>
    constructor
    · simp [InitiatePayment, hfresh, List.filter_append, hnil, newPaymentRow]
    · simp [InitiatePayment, hfresh, hkey, List.any_append, newPaymentRow]

/-- Witness for C3: a fresh key accepted once, then rejected as a
conflict with different amount, phone, URL and upstream outcome. -/
theorem initiatePayment_duplicate_key_witness :
    (sampleReq2.idempotencyKey = sampleReq.idempotencyKey ∧
     ([] : List Transaction).any
       (fun t => t.idempotencyKey == sampleReq.idempotencyKey) = false) ∧
    ((((InitiatePayment [] 7 sampleReq (StkOutcome.ok ("c1") ("m1"))).1.filter
        (fun t => t.idempotencyKey == sampleReq.idempotencyKey)).length = 1) ∧
     (InitiatePayment (InitiatePayment [] 7 sampleReq (StkOutcome.ok ("c1") ("m1"))).1 8
        sampleReq2 (StkOutcome.fail ("unused")) =
       ((InitiatePayment [] 7 sampleReq (StkOutcome.ok ("c1") ("m1"))).1,
        Except.error InitError.duplicateKey))) :=
  ⟨⟨rfl, rfl⟩,
   initiatePayment_duplicate_key [] 7 8 sampleReq sampleReq2
     (StkOutcome.ok ("c1") ("m1")) (StkOutcome.fail ("unused")) rfl rfl⟩

/-- Counterexample for C8 as stated: with entirely valid inputs and a
fresh idempotency key, when the upstream STK Push call fails,
`InitiatePayment` still persists exactly one PENDING row but returns the
STK failure error, not the PENDING response the claim promises. -/
theorem initiatePayment_pending_cex :
    (0 < sampleReq.amount ∧ validPhone sampleReq.phone = true ∧
     ([] : List Transaction).any
       (fun t => t.idempotencyKey == sampleReq.idempotencyKey) = false) ∧
    (InitiatePayment [] 7 sampleReq (StkOutcome.fail ("request timed out"))).2 =
      Except.error (InitError.stkFailed ("request timed out")) ∧
    (InitiatePayment [] 7 sampleReq (StkOutcome.fail ("request timed out"))).2 ≠
      Except.ok { transactionID := 7, status := StatusPending } ∧
    (InitiatePayment [] 7 sampleReq (StkOutcome.fail ("request timed out"))).1.length = 1 := by
  refine ⟨⟨by decide, by decide, rfl⟩, rfl, ?_, rfl⟩
  intro h
  exact Except.noConfusion h

/-- C8 (amended): for every valid input with a fresh idempotency key,
provided the upstream STK Push call succeeds, `InitiatePayment` appends
exactly one transaction row, that row is PENDING and carries the new
internal transaction id, and the caller receives that id with status
PENDING. (On upstream failure the single PENDING row is still persisted,
but an error is returned instead — see the counterexample.) -/
theorem initiatePayment_fresh_pending (db : List Transaction) (id : Nat)
    (req : InitiatePaymentRequest) (c m : String)
    (_hamt : 0 < req.amount) (_hphone : validPhone req.phone = true)
    (hfresh : db.any (fun t => t.idempotencyKey == req.idempotencyKey) = false) :
    ∃ row,
      (InitiatePayment db id req (StkOutcome.ok c m)).1 = db ++ [row] ∧
      row.status = StatusPending ∧
      row.internalTransactionID = id ∧
      (InitiatePayment db id req (StkOutcome.ok c m)).2 =
        Except.ok { transactionID := id, status := StatusPending } := by
  refine ⟨{ newPaymentRow db.length id req with
      checkoutRequestID := some c
      merchantRequestID := some m }, ?_, rfl, rfl, ?_⟩
  · simp [InitiatePayment, hfresh]
  · simp [InitiatePayment, hfresh]

/-- Witness for the amended C8 at a concrete valid request with a
successful upstream call. -/
theorem initiatePayment_fresh_pending_witness :
    (0 < sampleReq.amount ∧ validPhone sampleReq.phone = true ∧
     ([] : List Transaction).any
       (fun t => t.idempotencyKey == sampleReq.idempotencyKey) = false) ∧
    ∃ row,
      (InitiatePayment [] 7 sampleReq (StkOutcome.ok ("ws_CO_1") ("m_1"))).1 = [] ++ [row] ∧
      row.status = StatusPending ∧
      row.internalTransactionID = 7 ∧
      (InitiatePayment [] 7 sampleReq (StkOutcome.ok ("ws_CO_1") ("m_1"))).2 =
        Except.ok { transactionID := 7, status := StatusPending } :=
  ⟨⟨by decide, by decide, rfl⟩,
   initiatePayment_fresh_pending [] 7 sampleReq ("ws_CO_1") ("m_1")
     (by decide) (by decide) rfl⟩

theorem tokenValid_mono (n1 n2 : Int) (st : TokenState) (h : n1 ≤ n2)
    (hv : tokenValid n1 st = false) : tokenValid n2 st = false := by
  simp [tokenValid] at hv ⊢
  intro hlt
  exact hv (by omega)

theorem refreshToken_ok_token (now : Int) (resp : AuthResult) (st : TokenState)
    (h : (refreshToken now resp st).2 = none) :
    (refreshToken now resp st).1.token ≠ "" := by
  cases resp with
  | transportError msg => simp [refreshToken] at h
  | response code body =>
    by_cases hc : code = 200
    · cases body with
      | decodeError => simp [refreshToken, hc] at h
      | parsed tok e =>
        by_cases ht : tok = ""
        · simp [refreshToken, hc, ht] at h
        · simp [refreshToken, hc, ht]
    · simp [refreshToken, hc] at h

theorem serializeCallers_valid (rest : List (Int × AuthResult)) (st : TokenState)
    (h : ∀ c ∈ rest, tokenValid c.1 st = true) :
    serializeCallers rest st =
      (st, List.replicate rest.length (Except.ok st.token), 0) := by
  induction rest with
  | nil => rfl
  | cons c rest ih =>
    have hc := h c (List.mem_cons_self c rest)
    have hrest := ih (fun d hd => h d (List.mem_cons_of_mem c hd))
    simp [serializeCallers, refreshTokenSafe, hc, hrest, List.replicate_succ]

/-- C6: single-flight refresh. When the cached token is invalid, the
serialized critical sections of any number of concurrent `GetToken`
callers issue exactly one upstream token request — the first caller's,
whose response carries a (non-empty) token — and every caller receives
exactly that token; the cache ends holding it with expiry
`n1 + expiresIn − 300`. The hypothesis on the remaining callers says they
run while the freshly stored token is still valid, i.e. they are the
callers concurrent with the refresh. -/
theorem getToken_single_flight (st0 : TokenState) (n1 : Int) (tok : String)
    (e : Int) (rest : List (Int × AuthResult))
    (h0 : tokenValid n1 st0 = false)
    (htok : tok ≠ "")
    (hrest : ∀ c ∈ rest,
      tokenValid c.1 { token := tok, expiresAt := n1 + e - 300 } = true) :
    serializeCallers
        ((n1, AuthResult.response 200 (TokenRespBody.parsed tok (some e))) :: rest) st0 =
      ({ token := tok, expiresAt := n1 + e - 300 },
       List.replicate (rest.length + 1) (Except.ok tok), 1) := by
  have hfirst : refreshTokenSafe n1
      (AuthResult.response 200 (TokenRespBody.parsed tok (some e))) st0 =
      ({ token := tok, expiresAt := n1 + e - 300 }, Except.ok tok, 1) := by
    simp [refreshTokenSafe, refreshToken, h0, htok]
  have hrest2 := serializeCallers_valid rest { token := tok, expiresAt := n1 + e - 300 } hrest
  simp [serializeCallers, hfirst, hrest2, List.replicate_succ]

/-- Witness for C6: an empty cache, a refresh returning a 3599-second
token at t = 1000, and two more callers entering the lock at t = 1001
and t = 1002 (their would-be upstream outcomes are never used). -/
theorem getToken_single_flight_witness :
    (tokenValid 1000 { token := "", expiresAt := 0 } = false ∧
     "sandbox-token-abc" ≠ "" ∧
     (∀ c ∈ [((1001 : Int), AuthResult.transportError ("unused")),
             ((1002 : Int), AuthResult.response 500 TokenRespBody.decodeError)],
       tokenValid c.1 { token := "sandbox-token-abc", expiresAt := 1000 + 3599 - 300 } = true)) ∧
    serializeCallers
        ((1000, AuthResult.response 200
            (TokenRespBody.parsed ("sandbox-token-abc") (some 3599))) ::
          [((1001 : Int), AuthResult.transportError ("unused")),
           ((1002 : Int), AuthResult.response 500 TokenRespBody.decodeError)])
        { token := "", expiresAt := 0 } =
      ({ token := "sandbox-token-abc", expiresAt := 1000 + 3599 - 300 },
       List.replicate (2 + 1) (Except.ok ("sandbox-token-abc")), 1) :=
  ⟨⟨by decide, by decide, by decide⟩,
   getToken_single_flight { token := "", expiresAt := 0 } 1000 ("sandbox-token-abc")
     3599
     [((1001 : Int), AuthResult.transportError ("unused")),
      ((1002 : Int), AuthResult.response 500 TokenRespBody.decodeError)]
     (by decide) (by decide) (by decide)⟩

theorem refreshTokenSafe_requests (now : Int) (resp : AuthResult) (st : TokenState)
    (h : tokenValid now st = false) :
    (refreshTokenSafe now resp st).2.2 = 1 := by
  unfold refreshTokenSafe
  rw [h]
  simp only [Bool.false_eq_true, if_false]
  rcases hres : refreshToken now resp st with ⟨st2, e⟩
  cases e <;> simp

/-- C7: a failed refresh caches nothing. If the cached token is invalid
and the upstream token endpoint answers with a non-success status or an
empty access token, `GetToken` returns an error, the cached token and
expiry are unchanged, and any later `GetToken` call (still finding the
invalid cache) performs the refresh again — exactly one new upstream
request. -/
theorem getToken_failed_refresh (nowFast nowLocked : Int) (resp : AuthResult)
    (st : TokenState)
    (hmono : nowFast ≤ nowLocked)
    (hinvalid : tokenValid nowFast st = false)
    (hbad : (∃ code body, resp = AuthResult.response code body ∧ code ≠ 200) ∨
            (∃ e, resp = AuthResult.response 200 (TokenRespBody.parsed ("") e))) :
    (∃ err, (GetToken nowFast nowLocked resp st).2.1 = Except.error err) ∧
    (GetToken nowFast nowLocked resp st).1 = st ∧
    (∀ nf2 nl2 : Int, ∀ resp2 : AuthResult, nowLocked ≤ nf2 → nf2 ≤ nl2 →
      (GetToken nf2 nl2 resp2 (GetToken nowFast nowLocked resp st).1).2.2 = 1) := by
  have hinvL : tokenValid nowLocked st = false := tokenValid_mono _ _ _ hmono hinvalid
  have hsafe : ∃ err, refreshTokenSafe nowLocked resp st = (st, Except.error err, 1) := by
    rcases hbad with ⟨code, body, rfl, hcode⟩ | ⟨e, rfl⟩
    · exact ⟨"token request failed",
        by simp [refreshTokenSafe, refreshToken, hinvL, hcode]⟩
    · exact ⟨"received empty access token",
        by simp [refreshTokenSafe, refreshToken, hinvL]⟩
  obtain ⟨err, hsafe⟩ := hsafe
  have hget : GetToken nowFast nowLocked resp st = (st, Except.error err, 1) := by
    unfold GetToken
    rw [hinvalid]
    simp only [Bool.false_eq_true, if_false]
    exact hsafe
  refine ⟨⟨err, by rw [hget]⟩, by rw [hget], ?_⟩
  intro nf2 nl2 resp2 h1 h2
  rw [hget]
  have hinv2 : tokenValid nf2 st = false := tokenValid_mono _ _ _ h1 hinvL
  have hinv3 : tokenValid nl2 st = false := tokenValid_mono _ _ _ h2 hinv2
  unfold GetToken
  rw [hinv2]
  simp only [Bool.false_eq_true, if_false]
  exact refreshTokenSafe_requests nl2 resp2 st hinv3

/-- Witness for C7: an expired empty cache and an upstream answering 500
with an undecodable body; a follow-up call at t = 7 refreshes again. -/
theorem getToken_failed_refresh_witness :
    ((5 : Int) ≤ 6 ∧
     tokenValid 5 { token := "", expiresAt := 0 } = false ∧
     ((∃ code body, AuthResult.response 500 TokenRespBody.decodeError =
        AuthResult.response code body ∧ code ≠ 200) ∨
      (∃ e, AuthResult.response 500 TokenRespBody.decodeError =
        AuthResult.response 200 (TokenRespBody.parsed ("") e)))) ∧
    ((∃ err, (GetToken 5 6 (AuthResult.response 500 TokenRespBody.decodeError)
        { token := "", expiresAt := 0 }).2.1 = Except.error err) ∧
     (GetToken 5 6 (AuthResult.response 500 TokenRespBody.decodeError)
        { token := "", expiresAt := 0 }).1 = { token := "", expiresAt := 0 } ∧
     (∀ nf2 nl2 : Int, ∀ resp2 : AuthResult, (6 : Int) ≤ nf2 → nf2 ≤ nl2 →
       (GetToken nf2 nl2 resp2
         (GetToken 5 6 (AuthResult.response 500 TokenRespBody.decodeError)
           { token := "", expiresAt := 0 }).1).2.2 = 1)) :=
  ⟨⟨by decide, by decide,
    Or.inl ⟨500, TokenRespBody.decodeError, rfl, by decide⟩⟩,
   getToken_failed_refresh 5 6 (AuthResult.response 500 TokenRespBody.decodeError)
     { token := "", expiresAt := 0 } (by decide) (by decide)
     (Or.inl ⟨500, TokenRespBody.decodeError, rfl, by decide⟩)⟩

/-- C10: whenever `GetToken` returns without an error, the returned token
is a non-empty string — the fast path and the locked double-check demand a
non-empty cached token, and a refresh only succeeds after rejecting an
empty upstream access token. -/
theorem getToken_ok_nonempty (nowFast nowLocked : Int) (resp : AuthResult)
    (st : TokenState) (tok : String)
    (h : (GetToken nowFast nowLocked resp st).2.1 = Except.ok tok) :
    tok ≠ "" := by
  by_cases hf : tokenValid nowFast st = true
  · have hget : GetToken nowFast nowLocked resp st = (st, Except.ok st.token, 0) := by
      unfold GetToken; rw [if_pos hf]
    rw [hget] at h
    have htok : st.token = tok := by simpa using h
    simp [tokenValid] at hf
    rw [← htok]
    exact hf.2
  · unfold GetToken at h
    rw [if_neg hf] at h
    unfold refreshTokenSafe at h
    by_cases hl : tokenValid nowLocked st = true
    · rw [if_pos hl] at h
      have htok : st.token = tok := by simpa using h
      simp [tokenValid] at hl
      rw [← htok]
      exact hl.2
    · rw [if_neg hl] at h
      rcases hrt : refreshToken nowLocked resp st with ⟨st2, e⟩
      rw [hrt] at h
      cases e with
      | some e0 => simp at h
      | none =>
        have htok : st2.token = tok := by simpa using h
        have hne := refreshToken_ok_token nowLocked resp st (by rw [hrt])
        rw [hrt] at hne
        rw [← htok]
        exact hne

/-- Witness for C10: an empty cache refreshed from a 200 response carrying
the token "abc". -/
theorem getToken_ok_nonempty_witness :
    (GetToken 0 0 (AuthResult.response 200 (TokenRespBody.parsed ("abc") (some 3599)))
        { token := "", expiresAt := 0 }).2.1 = Except.ok ("abc") ∧
    ("abc" : String) ≠ "" :=
  ⟨rfl,
   getToken_ok_nonempty 0 0
     (AuthResult.response 200 (TokenRespBody.parsed ("abc") (some 3599)))
     { token := "", expiresAt := 0 } ("abc") rfl⟩

end MpesaGateway
